import Mathlib

/-
Verification development for the robotsim translation service.

The embedding models the Python sources `validator.py`, `parser.py`,
`spike_generator.py` and `spike_translation_config.py` over an explicit
fragment of the Python abstract syntax tree.  Python runtime values that
can appear as `ast.Constant` payloads are modelled by `Const`; numeric
constants are modelled as integers (none of the verified properties
depends on floating point, which is out of scope for this embedding).
Python exceptions raised by the recognizer (`SyntaxError`, `TypeError`)
are modelled by `Except String`.
-/

/-- Model of a Python constant value carried by an `ast.Constant` node.
`Const.none` models the Python value `None`.  Python `bool` is a subclass
of `int`, which several source checks rely on; the model keeps `bool`
distinct and reproduces the subclass behaviour where the source uses
`isinstance(x, (int, float))`. -/
inductive Const where
  | int (n : Int)
  | str (s : String)
  | bool (b : Bool)
  | none
deriving Repr

/-- Unary operator nodes (`ast.UAdd`, `ast.USub`, `ast.Not`). -/
inductive UOp where
  | uadd
  | usub
  | unot
deriving Repr

/-- Binary operator nodes.  The validator only special-cases the first four;
the remaining constructors stand for the other Python operators, which all
fall through to rejection. -/
inductive BOp where
  | add
  | sub
  | mult
  | div
  | mod
  | pow
  | floordiv
deriving Repr

/-- The operators of an `ast.BoolOp` node (`ast.And`, `ast.Or`). -/
inductive BoolOpK where
  | and
  | or
deriving Repr

/-- Comparison operator nodes. -/
inductive CmpOp where
  | eq
  | notEq
  | lt
  | ltE
  | gt
  | gtE
deriving Repr

/-- The expression fragment of the Python AST that the repository
inspects: constants, names, unary and binary operators, boolean
operators, comparisons, calls, attribute access, subscripts, list
displays and `await` expressions. -/
inductive Expr where
  | const (value : Const)
  | name (id : String)
  | unaryOp (op : UOp) (operand : Expr)
  | binOp (left : Expr) (op : BOp) (right : Expr)
  | boolOp (op : BoolOpK) (values : List Expr)
  | compare (left : Expr) (ops : List CmpOp) (comparators : List Expr)
  | call (func : Expr) (args : List Expr)
  | attribute (value : Expr) (attr : String)
  | subscript (value : Expr) (slice : Expr)
  | listE (elts : List Expr)
  | awaitE (value : Expr)
deriving Repr

/-- Statement nodes.  Each carries its (1-based) `lineno` and
`end_lineno`, mirroring the location attributes the parser reads via
`_with_loc`.  `passS` and `importS` stand for the statement shapes the
recognizer has no branch for. -/
inductive Stmt where
  | exprS (value : Expr) (loc : Nat × Nat)
  | assignS (targets : List Expr) (value : Expr) (loc : Nat × Nat)
  | forS (target : Expr) (iter : Expr) (body : List Stmt) (loc : Nat × Nat)
  | whileS (test : Expr) (body : List Stmt) (loc : Nat × Nat)
  | ifS (test : Expr) (body : List Stmt) (orelse : List Stmt) (loc : Nat × Nat)
  | breakS (loc : Nat × Nat)
  | functionDefS (name : String) (params : List String) (body : List Stmt) (loc : Nat × Nat)
  | returnS (value : Option Expr) (loc : Nat × Nat)
  | passS (loc : Nat × Nat)
  | importS (module : String) (loc : Nat × Nat)
deriving Repr

/- ## validator.py -/

/-- The allow-list `ALLOWED_ATTR_CALLS` of dotted attribute paths
accepted as numeric sensor calls. -/
def ALLOWED_ATTR_CALLS : List String :=
  [ "distance_sensor.get_distance"
  , "distance_sensor.get_distance_cm"
  , "color_sensor.get_reflected_light"
  , "ir_sensor.get_direction"
  , "ir_sensor.get_strength"
  , "gyro_sensor.get_angle"
  , "gyro_sensor.get_rate"
  ]

/-- Walk an attribute chain down to its root identifier and rebuild the
dotted name.  The source collects the attribute parts in a list and joins
the reversed list; the accumulator here builds the same reversed list
directly. -/
def dotted_name : Expr → List String → Option String
  | .attribute v a, acc => dotted_name v (a :: acc)
  | .name id, acc => some (String.intercalate "." (id :: acc))
  | _, _ => Option.none

/-- Embedding of `_is_allowed_attr_call`: the callee is accepted when its
dotted name is an exact member of the allow-list; a chain that does not
end in a bare identifier is rejected. -/
def is_allowed_attr_call (func : Expr) : Bool :=
  match dotted_name func [] with
  | some dotted => ALLOWED_ATTR_CALLS.contains dotted
  | Option.none => false

mutual

/-- Embedding of `is_numeric_expr`.  The constant case mirrors
`isinstance(node.value, (int, float))`: Python `bool` is a subclass of
`int`, so boolean constants pass.  The `ast.Index` compatibility shim in
the subscript case is dead code on the Python versions the service runs
(3.9+), where `node.slice` is the index expression itself. -/
def is_numeric_expr : Expr → Bool
  | .const c =>
      match c with
      | .int _ => true
      | .bool _ => true
      | .str _ => false
      | .none => false
  | .name _ => true
  | .unaryOp op e =>
      match op with
      | .uadd => is_numeric_expr e
      | .usub => is_numeric_expr e
      | .unot => false
  | .binOp l op r =>
      match op with
      | .add => is_numeric_expr l && is_numeric_expr r
      | .sub => is_numeric_expr l && is_numeric_expr r
      | .mult => is_numeric_expr l && is_numeric_expr r
      | .div => is_numeric_expr l && is_numeric_expr r
      | _ => false
  | .subscript v ix => is_numeric_expr v && is_numeric_expr ix
  | .call (.attribute v a) args =>
      is_allowed_attr_call (.attribute v a) && list_all_numeric args
  | _ => false

/-- The `all(is_numeric_expr(a) for a in node.args)` part of the call
case. -/
def list_all_numeric : List Expr → Bool
  | [] => true
  | a :: rest => is_numeric_expr a && list_all_numeric rest

end

mutual

/-- Embedding of `is_boolean_expr`: boolean constants, names, any
comparison, `and`/`or` over boolean expressions, `not` over a boolean
expression; everything else rejected. -/
def is_boolean_expr : Expr → Bool
  | .const (.bool _) => true
  | .name _ => true
  | .compare _ _ _ => true
  | .boolOp _ values => list_all_boolean values
  | .unaryOp .unot e => is_boolean_expr e
  | _ => false

/-- The `all(is_boolean_expr(v) for v in node.values)` part of the
`ast.BoolOp` case. -/
def list_all_boolean : List Expr → Bool
  | [] => true
  | v :: rest => is_boolean_expr v && list_all_boolean rest

end

/- ## String helpers modelling Python library behaviour -/

/-- The single-quote character, used when rendering Python string
representations. -/
def sglq : String := String.mk [Char.ofNat 39]

/-- Model of Python `repr` on the constant values of `Const`.  String
constants are modelled for payloads without quotes or escapes, which is
the only way they are exercised here. -/
def pyRepr : Const → String
  | .int n => toString n
  | .str s => sglq ++ s ++ sglq
  | .bool b => if b then "True" else "False"
  | .none => "None"

/-- Model of Python `str` on the constant values of `Const` (used by
f-string interpolation in the generator). -/
def pyStr : Const → String
  | .int n => toString n
  | .str s => s
  | .bool b => if b then "True" else "False"
  | .none => "None"

/-- Rendered text of a binary operator. -/
def bopStr : BOp → String
  | .add => "+"
  | .sub => "-"
  | .mult => "*"
  | .div => "/"
  | .mod => "%"
  | .pow => "**"
  | .floordiv => "//"

/-- Rendered text of a comparison operator. -/
def cmpStr : CmpOp → String
  | .eq => "=="
  | .notEq => "!="
  | .lt => "<"
  | .ltE => "<="
  | .gt => ">"
  | .gtE => ">="

mutual

/-- Model of the standard-library `ast.unparse` on the expression
fragment.  Precedence-driven parenthesisation is omitted: no verified
property inspects the rendred text of an expression that would need
parentheses. -/
def unparse : Expr → String
  | .const c => pyRepr c
  | .name id => id
  | .unaryOp op e =>
      (match op with
       | .uadd => "+"
       | .usub => "-"
       | .unot => "not ") ++ unparse e
  | .binOp l op r => unparse l ++ " " ++ bopStr op ++ " " ++ unparse r
  | .boolOp op vs =>
      String.intercalate
        (match op with | .and => " and " | .or => " or ") (unparse_list vs)
  | .compare l ops rs => unparse l ++ unparse_cmps ops rs
  | .call f args => unparse f ++ "(" ++ String.intercalate ", " (unparse_list args) ++ ")"
  | .attribute v a => unparse v ++ "." ++ a
  | .subscript v s => unparse v ++ "[" ++ unparse s ++ "]"
  | .listE es => "[" ++ String.intercalate ", " (unparse_list es) ++ "]"
  | .awaitE e => "await " ++ unparse e

/-- Unparse every expression of a list. -/
def unparse_list : List Expr → List String
  | [] => []
  | e :: rest => unparse e :: unparse_list rest

/-- Unparse the operator/comparator tail of an `ast.Compare` node. -/
def unparse_cmps : List CmpOp → List Expr → String
  | op :: ops, r :: rs => " " ++ cmpStr op ++ " " ++ unparse r ++ unparse_cmps ops rs
  | _, _ => ""

end

/- ## The instruction records produced by parser.py -/

/-- One argument record of a `function_call` instruction: either a
`{"type": "constant"}` or a `{"type": "expression"}` pair. -/
inductive CallArg where
  | constant (value : Const)
  | expression (value : String)
deriving Repr

mutual

/-- The tagged payload of an instruction dictionary.  Mutually exclusive
dictionary keys (`speed` vs `speed_expr`, `seconds` vs `seconds_expr`)
become separate constructors.  In `returnI` the `value` field holds
`Const.none` exactly when the Python dictionary holds `None` there, and a
missing `expression` key is `Option.none`; an `if` with no `orelse` key
carries the empty list, matching the generator, which only tests the key
for presence-and-nonemptiness. -/
inductive IData where
  | commentBlock (text : String)
  | motorStartSpeed (motor : String) (speed : Const)
  | motorStartExpr (motor : String) (speed_expr : String)
  | motorStop (motor : String)
  | irDirection
  | irStrength
  | waitSeconds (seconds : Const)
  | waitExpr (seconds_expr : String)
  | printMsg (message : Const)
  | printExpr (expression : String)
  | assignI (var : String) (expression : String)
  | forI (target : String) (iter : String) (body : List Instr)
  | whileI (condition : String) (body : List Instr)
  | ifI (condition : String) (body : List Instr) (orelse : List Instr)
  | breakI
  | functionDefI (name : String) (params : List String) (body : List Instr)
  | returnI (value : Const) (expression : Option String)
  | functionCall (name : String) (args : List CallArg)

/-- An instruction record: the payload plus the `lineno`/`end_lineno`
fields attached by `_with_loc` (read back with `.get`, hence optional)
and the `await` marker. -/
inductive Instr where
  | mk (data : IData) (lineno : Option Nat) (end_lineno : Option Nat) (awaited : Bool)

end

/-- Payload of an instruction record. -/
def Instr.data : Instr → IData
  | ⟨d, _, _, _⟩ => d

/-- Recorded start line of an instruction record. -/
def Instr.lineno : Instr → Option Nat
  | ⟨_, l, _, _⟩ => l

/-- Recorded end line of an instruction record. -/
def Instr.end_lineno : Instr → Option Nat
  | ⟨_, _, e, _⟩ => e

/- ## parser.py -/

/-- The motor-object whitelist of `parse_call`. -/
def MOTOR_OBJECTS : List String := ["motor_a", "motor_b", "motor_c", "motor_d"]

/-- Model of `obj[-1].lower()` for the motor channel letter.  Motor
object names are never empty, so the default character is unreachable. -/
def last_lower (s : String) : String :=
  String.mk [(s.toList.getLastD ' ').toLower]

/-- Negation of a constant, modelling Python unary minus on a constant
value: defined on numbers (with `bool` as `int`), a `TypeError` —
`Option.none` here — on strings and `None`. -/
def neg_const : Const → Option Const
  | .int n => some (.int (-n))
  | .bool b => some (.int (-(if b then (1 : Int) else 0)))
  | _ => Option.none

/-- Embedding of `parse_call`.  The nested match on `args` mirrors the
source's combined conditions `if method == "start" and call_node.args:`
and `if func_name == "wait" and call_node.args:`: an empty argument list
simply falls through to the later branches. -/
def parse_call (func : Expr) (args : List Expr) : Except String (Option IData) :=
  match func with
  | .attribute v method =>
      match (match v with | .name id => some id | _ => Option.none) with
      | some obj =>
          if MOTOR_OBJECTS.contains obj then
            match args with
            | arg :: _ =>
                if method == "start" then
                  match arg with
                  | .const c => .ok (some (.motorStartSpeed (last_lower obj) c))
                  | .unaryOp .usub (.const c) =>
                      match neg_const c with
                      | some c' => .ok (some (.motorStartSpeed (last_lower obj) c'))
                      | Option.none => .error "TypeError: bad operand type for unary -"
                  | _ =>
                      if is_numeric_expr arg then
                        .ok (some (.motorStartExpr (last_lower obj) (unparse arg)))
                      else
                        .error "motor.start() expects a numeric expression (e.g., 50, speeds[i], x+5)."
                else if method == "stop" then
                  .ok (some (.motorStop (last_lower obj)))
                else
                  .ok Option.none
            | [] =>
                if method == "stop" then
                  .ok (some (.motorStop (last_lower obj)))
                else
                  .ok Option.none
          else if obj == "ir_sensor" then
            if method == "get_direction" then .ok (some .irDirection)
            else if method == "get_strength" then .ok (some .irStrength)
            else .ok Option.none
          else
            .ok Option.none
      | Option.none => .ok Option.none
  | .name fname =>
      match args with
      | arg :: _ =>
          if fname == "wait" then
            match arg with
            | .const c => .ok (some (.waitSeconds c))
            | _ =>
                if is_numeric_expr arg then
                  .ok (some (.waitExpr (unparse arg)))
                else
                  .error "wait() expects a numeric expression in seconds."
          else if fname == "print" then
            match args with
            | [a] =>
                match a with
                | .const c => .ok (some (.printMsg c))
                | _ => .ok (some (.printExpr (unparse a)))
            | _ =>
                .ok (some (.printExpr
                  (String.intercalate (" + " ++ sglq ++ " " ++ sglq ++ " + ") (unparse_list args))))
          else
            .ok (some (.functionCall fname (args.map fun a =>
              match a with
              | .const c => CallArg.constant c
              | _ => CallArg.expression (unparse a))))
      | [] =>
          if fname == "print" then
            .ok (some (.printMsg (.str "")))
          else
            .ok (some (.functionCall fname []))
  | _ => .ok Option.none

/-- Embedding of `parse_return` (exception-free). -/
def parse_return : Option Expr → IData
  | Option.none => .returnI .none Option.none
  | some (.const c) => .returnI c Option.none
  | some v => .returnI .none (some (unparse v))

mutual

/-- Embedding of `parse_stmt`: dispatch on the statement shape, attach
`lineno`/`end_lineno` via `_with_loc`, return no instruction for every
unhandled shape. -/
def parse_stmt : Stmt → Except String (Option Instr)
  | .exprS (.const (.str s)) loc =>
      .ok (some ⟨.commentBlock s, some loc.1, some loc.2, false⟩)
  | .exprS (.call f args) loc =>
      match parse_call f args with
      | .error e => .error e
      | .ok Option.none => .ok Option.none
      | .ok (some d) => .ok (some ⟨d, some loc.1, some loc.2, false⟩)
  | .exprS (.awaitE (.call f args)) loc =>
      match parse_call f args with
      | .error e => .error e
      | .ok Option.none => .ok Option.none
      | .ok (some d) => .ok (some ⟨d, some loc.1, some loc.2, true⟩)
  | .exprS _ _ => .ok Option.none
  | .assignS [.name v] value loc =>
      .ok (some ⟨.assignI v (unparse value), some loc.1, some loc.2, false⟩)
  | .assignS _ _ _ => .ok Option.none
  | .forS target iter body loc =>
      match parse_body body with
      | .error e => .error e
      | .ok b =>
          .ok (some ⟨.forI (unparse target) (unparse iter) b, some loc.1, some loc.2, false⟩)
  | .whileS test body loc =>
      if is_boolean_expr test then
        match parse_body body with
        | .error e => .error e
        | .ok b => .ok (some ⟨.whileI (unparse test) b, some loc.1, some loc.2, false⟩)
      else
        .error ("while condition must be a boolean expression, got: " ++ unparse test)
  | .ifS test body orelse loc =>
      if is_boolean_expr test then
        match parse_body body with
        | .error e => .error e
        | .ok b =>
            match parse_body orelse with
            | .error e => .error e
            | .ok o => .ok (some ⟨.ifI (unparse test) b o, some loc.1, some loc.2, false⟩)
      else
        .error ("if condition must be a boolean expression, got: " ++ unparse test)
  | .breakS loc => .ok (some ⟨.breakI, some loc.1, some loc.2, false⟩)
  | .functionDefS name params body loc =>
      match parse_body body with
      | .error e => .error e
      | .ok b => .ok (some ⟨.functionDefI name params b, some loc.1, some loc.2, false⟩)
  | .returnS v loc => .ok (some ⟨parse_return v, some loc.1, some loc.2, false⟩)
  | .passS _ => .ok Option.none
  | .importS _ _ => .ok Option.none

/-- The statement loop shared by `convert_ast_to_instructions`,
`parse_for`, `parse_while`, `parse_if` and `parse_function`: parse each
statement in order, keep the instructions that are produced, propagate
the first raised error. -/
def parse_body : List Stmt → Except String (List Instr)
  | [] => .ok []
  | s :: rest =>
      match parse_stmt s with
      | .error e => .error e
      | .ok Option.none => parse_body rest
      | .ok (some i) =>
          match parse_body rest with
          | .error e => .error e
          | .ok l => .ok (i :: l)

end

/-- Embedding of `convert_ast_to_instructions`: run the recognizer over
the module body. -/
def convert_ast_to_instructions (tree_body : List Stmt) : Except String (List Instr) :=
  parse_body tree_body

/- ## More Python string models (str.replace, in, strip, splitlines) -/

/-- Substring occurrence scan behind Python's `needle in hay`. -/
def contains_sub (needle : List Char) : List Char → Bool
  | [] => needle.isPrefixOf []
  | c :: t => if needle.isPrefixOf (c :: t) then true else contains_sub needle t

/-- Model of Python `needle in hay` on strings. -/
def pyIn (needle hay : String) : Bool :=
  contains_sub needle.toList hay.toList

/-- Replace every non-overlapping occurrence of `o :: old` left to right,
the core of Python `str.replace`.  The fuel argument starts at the length
of the scanned list and bounds it at every step, so the fuel-exhausted
arm (which returns the remaining list unchanged) is never reached. -/
def replace_chars (o : Char) (old new : List Char) : Nat → List Char → List Char
  | _, [] => []
  | 0, l => l
  | fuel + 1, c :: rest =>
      if (o :: old).isPrefixOf (c :: rest) then
        new ++ replace_chars o old new fuel (rest.drop old.length)
      else
        c :: replace_chars o old new fuel rest

/-- Model of Python `s.replace(old, new)` (all occurrences, left to
right, non-overlapping).  The empty-pattern case inserts `new` around
every character, as Python does; the substitution table never uses it. -/
def pyReplace (s old new : String) : String :=
  match old.toList with
  | [] => new ++ String.mk (s.toList.flatMap (fun c => c :: new.toList))
  | o :: os => String.mk (replace_chars o os new.toList s.toList.length s.toList)

/-- Model of Python `str.lstrip()`. -/
def py_lstrip (s : String) : String :=
  String.mk (s.toList.dropWhile Char.isWhitespace)

/-- Model of Python `str.strip()`. -/
def py_strip (s : String) : String :=
  String.mk (((s.toList.dropWhile Char.isWhitespace).reverse.dropWhile Char.isWhitespace).reverse)

/-- Split a character list at every newline (the segments between the
newline characters, like `String.splitOn "\n"`). -/
def split_nl : List Char → List (List Char)
  | [] => [[]]
  | c :: rest =>
      match split_nl rest with
      | [] => []
      | h :: t => if c == '\n' then [] :: h :: t else (c :: h) :: t

/-- The list of segments of `s` between newline characters. -/
def split_on_newline (s : String) : List String :=
  (split_nl s.toList).map String.mk

/-- Model of Python `str.startswith` (over a plain prefix string). -/
def py_startswith (s pre : String) : Bool :=
  pre.toList.isPrefixOf s.toList

/-- Model of Python `str.upper()` for the ASCII names used here. -/
def py_upper (s : String) : String :=
  String.mk (s.toList.map Char.toUpper)

/-- Model of Python `str.splitlines()` for `\n`-separated text (the only
separator the service's sources contain). -/
def py_splitlines (s : String) : List String :=
  if s == "" then []
  else
    let parts := split_on_newline s
    if parts.getLast? == some "" then parts.dropLast else parts

/- ## spike_translation_config.py -/

/-- The static device-configuration tables that
`spike_translation_config.py` defines at module level and
`spike_generator.py` imports.  They are bundled in one record so that a
translation request can be modelled as a state-passing function over
them. -/
structure TranslationTables where
  generation_config : List (String × Bool)
  motor_mapping : List (String × String × Bool)
  sensor_mapping : List (String × String)
  sensor_translations : List (String × String)
  max_speed_dps : Nat

/-- The `GENERATION_CONFIG` table (all values are booleans). -/
def GENERATION_CONFIG : List (String × Bool) :=
  [ ("include_speed_explanation", false)
  , ("convert_percent_to_dps", true)
  , ("add_type_hints", false)
  , ("include_port_config_note", true)
  , ("use_single_helper", true)
  , ("include_distance_helper", true)
  ]

/-- The `MOTOR_MAPPING` table: name, port, reversed flag. -/
def MOTOR_MAPPING : List (String × String × Bool) :=
  [ ("motor_left", "port.A", false)
  , ("motor_right", "port.B", false)
  , ("motor_fl", "port.A", false)
  , ("motor_fr", "port.B", false)
  , ("motor_bl", "port.C", false)
  , ("motor_br", "port.D", false)
  , ("motor_a", "port.A", false)
  , ("motor_b", "port.B", false)
  , ("motor_c", "port.C", false)
  , ("motor_d", "port.D", false)
  ]

/-- The `SENSOR_MAPPING` table. -/
def SENSOR_MAPPING : List (String × String) :=
  [ ("color_sensor", "port.E")
  , ("distance_sensor", "port.F")
  , ("ir_seeker", "port.C")
  ]

/-- The `SENSOR_TRANSLATIONS` table, in insertion order. -/
def SENSOR_TRANSLATIONS : List (String × String) :=
  [ ("distance_sensor.get_distance()", "get_distance()")
  , ("distance_sensor.get_distance_cm()", "get_distance()")
  , ("color_sensor.get_reflected_light()", "color_sensor.reflection(COLOR_SENSOR)")
  , ("color_sensor.get_color()", "color_sensor.color(COLOR_SENSOR)")
  , ("ir_sensor.get_direction()", "distance_sensor.distance(IR_SEEKER_PORT)")
  , ("ir_sensor.get_strength()", "IR_SEEKER_PORT.device.get()[2]")
  , ("gyro_sensor.get_angle()", "motion_sensor.tilt_angles()[0]")
  , ("gyro_sensor.get_rate()", "motion_sensor.angular_velocity(motion_sensor.YAW)")
  ]

/-- The `SENSOR_IMPORTS` table (`None` for the IR sensor). -/
def SENSOR_IMPORTS : List (String × Option String) :=
  [ ("color_sensor", some "import color_sensor")
  , ("distance_sensor", some "import distance_sensor")
  , ("gyro_sensor", some "from hub import motion_sensor")
  , ("ir_sensor", Option.none)
  ]

/-- The process-wide table value loaded at import time. -/
def THE_TABLES : TranslationTables :=
  ⟨GENERATION_CONFIG, MOTOR_MAPPING, SENSOR_MAPPING, SENSOR_TRANSLATIONS, 720⟩

/-- Embedding of `get_motor_port` with its `"port.A"` default. -/
def get_motor_port (t : TranslationTables) (motor_name : String) : String :=
  match t.motor_mapping.find? (fun e => e.1 == motor_name) with
  | some e => e.2.1
  | Option.none => "port.A"

/-- Embedding of `is_motor_reversed` with its `False` default. -/
def is_motor_reversed (t : TranslationTables) (motor_name : String) : Bool :=
  match t.motor_mapping.find? (fun e => e.1 == motor_name) with
  | some e => e.2.2
  | Option.none => false

/-- Embedding of `get_sensor_port` with its `"port.E"` default. -/
def get_sensor_port (t : TranslationTables) (sensor_name : String) : String :=
  match t.sensor_mapping.find? (fun e => e.1 == sensor_name) with
  | some e => e.2
  | Option.none => "port.E"

/-- Lookup in `SENSOR_IMPORTS`. -/
def sensor_import (sensor_name : String) : Option String :=
  match SENSOR_IMPORTS.find? (fun e => e.1 == sensor_name) with
  | some e => e.2
  | Option.none => Option.none

/-- The `EDUCATIONAL_NOTES["ir_sensor"]` text. -/
def EDUCATIONAL_NOTES_ir_sensor : String :=
  "\n# IR Seeker Setup:\n# Building Block Robotics IR Seeker appears as a distance/color sensor\n# Standard Mode: Use as distance sensor for direction only\n# Advanced Mode: Use hub.port.X.device for direction + strength\n# See: https://irseeker.buildingblockrobotics.com/guides/spike-prime"

/-- The `EDUCATIONAL_NOTES["port_configuration"]` text. -/
def EDUCATIONAL_NOTES_port_configuration : String :=
  "\n# IMPORTANT: Configure ports and directions below to match your robot\n# If a motor runs backwards, change its REVERSED flag to True"

/-- The `EDUCATIONAL_NOTES["distance_sensor_helper"]` text. -/
def EDUCATIONAL_NOTES_distance_sensor_helper : String :=
  "\n# Distance sensor helper: Returns distance in cm (like Word Blocks)\n# Spike Prime Python returns mm and -1 when nothing detected\n# We convert to cm and return 200 when nothing detected"

/-- The `NOTES.strip().split("\n")` idiom used when emitting note
banners. -/
def note_lines (s : String) : List String :=
  split_on_newline (py_strip s)

/- ## spike_generator.py -/

/-- Dictionary lookup returning `Option`, modelling `d.get(k)` before
applying a default. -/
def dict_get (d : List (String × Bool)) (k : String) : Option Bool :=
  (d.find? (fun e => e.1 == k)).map (fun e => e.2)

/-- Model of the dictionary merge `{**base, **overrides}`.  The merged
dictionary is only ever read through `.get`, so it is modelled up to
lookup: an entry of `overrides` shadows an entry of `base`. -/
def dict_merge (base overrides : List (String × Bool)) : List (String × Bool) :=
  overrides ++ base

/-- Truthiness of `self.config.get(k)` (missing key is `None`, falsy). -/
def cfg_get (config : List (String × Bool)) (k : String) : Bool :=
  match dict_get config k with
  | some b => b
  | Option.none => false

/-- `self.config.get(k, default)`. -/
def cfg_get_default (config : List (String × Bool)) (k : String) (dflt : Bool) : Bool :=
  match dict_get config k with
  | some b => b
  | Option.none => dflt

/-- The read-only per-request state of a `SpikeCodeGenerator` instance
after `generate` has stored the comment index: the imported tables, the
merged configuration, the standalone-comment line set, the inline-comment
map and the raw source lines. -/
structure GenCtx where
  tables : TranslationTables
  config : List (String × Bool)
  standalone : List Nat
  inline_comments : List (Nat × List String)
  src_lines : List String

/-- Embedding of `_translate_expression`: apply the substitution table in
insertion order, each entry replacing all its occurrences. -/
def translate_expression (t : TranslationTables) (expr : String) : String :=
  t.sensor_translations.foldl (fun result p => pyReplace result p.1 p.2) expr

/-- Embedding of `_collect_comments`.  The source tokenizes the raw text
with the `tokenize` module; the model scans each physical line for its
first `#`, which agrees with `tokenize` on sources whose string literals
contain no `#` (all sources exercised here).  A comment token whose line
holds nothing else (after stripping) is standalone; any other comment
token is inline, keyed by line number. -/
def collect_comments (src : String) :
    List Nat × List (Nat × List String) × List String :=
  if src == "" then ([], [], py_splitlines src)
  else
    let ls := py_splitlines src
    let numbered := (List.range ls.length).map (fun i => (i + 1, ls.getD i ""))
    let standalone := (numbered.filter (fun p => py_startswith (py_strip p.2) "#")).map (fun p => p.1)
    let inline := numbered.filterMap (fun p =>
      if py_startswith (py_strip p.2) "#" then Option.none
      else
        match p.2.toList.dropWhile (fun c => c != '#') with
        | [] => Option.none
        | cs => some (p.1, [String.mk cs]))
    (standalone, inline, ls)

/-- Python's `x or d` on an optional line number (`None` and `0` are both
falsy). -/
def py_or (o : Option Nat) (d : Nat) : Nat :=
  match o with
  | some n => if n == 0 then d else n
  | Option.none => d

/-- The `10**9` sort sentinel of `generate`. -/
def BIG_LINE : Nat := 1000000000

/-- The sort key `(d.get("lineno") or 10**9, d.get("end_lineno") or
10**9)`. -/
def sort_key (i : Instr) : Nat × Nat :=
  (py_or i.lineno BIG_LINE, py_or i.end_lineno BIG_LINE)

/-- Strict lexicographic comparison of sort keys. -/
def instr_lt (a b : Instr) : Bool :=
  (sort_key a).1 < (sort_key b).1 ||
    ((sort_key a).1 == (sort_key b).1 && (sort_key a).2 < (sort_key b).2)

/-- Insert `x` into a sorted list after every element it does not
strictly precede. -/
def insert_stable {α : Type} (lt : α → α → Bool) (x : α) : List α → List α
  | [] => [x]
  | y :: ys => if lt x y then x :: y :: ys else y :: insert_stable lt x ys

/-- Model of Python's stable `sorted`: fold the input in order, inserting
each element after all elements with a key not greater than its own. -/
def py_sorted {α : Type} (lt : α → α → Bool) (l : List α) : List α :=
  l.foldl (fun acc x => insert_stable lt x acc) []

/-- The generator's fixed four-space indent unit, repeated per level. -/
def indent_str_times (n : Nat) : String :=
  String.join (List.replicate n "    ")

/-- Append the inline comments registered for line `L` to the last
generated line, joined by two spaces (`_emit_child_instr` and the main
loop of `generate` share this logic). -/
def append_inline (ctx : GenCtx) (L : Nat) (lines : List String) : List String :=
  match ctx.inline_comments.find? (fun e => e.1 == L) with
  | some e => lines.dropLast ++ [lines.getLastD "" ++ "  " ++ String.intercalate "  " e.2]
  | Option.none => lines

/-- Embedding of `_emit_standalone_between`: the standalone-comment lines
with numbers in `[start_line, min(end_exclusive, len + 1))`, re-indented. -/
def emit_standalone_between (ctx : GenCtx) (start_line end_exclusive : Nat) (ind : String) :
    List String :=
  (List.range' start_line (min end_exclusive (ctx.src_lines.length + 1) - start_line)).filterMap
    (fun ln =>
      if ctx.standalone.contains ln then
        some (ind ++ py_lstrip (ctx.src_lines.getD (ln - 1) ""))
      else Option.none)

/-- The loop of the `emit_standalone_until` closure, counting the
remaining distance to the target line as explicit fuel (`fuel = target -
cursor` at every step, so `fuel > 0` is the loop condition `cursor <
target`). -/
def emit_standalone_until_go (ctx : GenCtx) (ind : String) : Nat → Nat → List String × Nat
  | 0, cursor => ([], cursor)
  | fuel + 1, cursor =>
      if cursor ≤ ctx.src_lines.length then
        let here :=
          if ctx.standalone.contains cursor then
            [ind ++ py_lstrip (ctx.src_lines.getD (cursor - 1) "")]
          else []
        let rest := emit_standalone_until_go ctx ind fuel (cursor + 1)
        (here ++ rest.1, rest.2)
      else ([], cursor)

/-- Embedding of the `emit_standalone_until` closure of `generate`: walk
the cursor towards `target` (stopping at the end of the source), emitting
every standalone comment line passed over; returns the emitted lines and
the final cursor. -/
def emit_standalone_until (ctx : GenCtx) (ind : String) (cursor target : Nat) :
    List String × Nat :=
  emit_standalone_until_go ctx ind (target - cursor) cursor

/-- Milliseconds value of `int(seconds * 1000)` on a literal `wait`
argument: defined on numbers (`bool` as `int`); on a string or `None`
Python raises, modelled as `Option.none`. -/
def wait_ms : Const → Option Int
  | .int n => some (n * 1000)
  | .bool b => some (if b then 1000 else 0)
  | _ => Option.none

/-- The sensor-getter substrings whose presence keeps an assignment from
being treated as an awaited user-function call. -/
def BUILTIN_GETTER_SUBSTRINGS : List String :=
  ["get_distance", "get_color", "get_reflected_light", "get_angle", "get_rate", "range"]

/-- Assembly step of `_emit_block` once the children have been emitted:
the header line at the block's level, the children's lines, and the
trailing standalone comments between the block-local cursor and the
block's recorded end line. -/
def finish_block (ctx : GenCtx) (level : Nat) (header : String)
    (end_lineno : Option Nat) (res : List String × Nat) : List String :=
  let block_end := py_or end_lineno res.2
  [indent_str_times level ++ header] ++ res.1
    ++ emit_standalone_between ctx res.2 (block_end + 1) (indent_str_times (level + 1))

mutual

/-- Embedding of `_generate_instruction`.  The ambient `self.indent_level`
becomes the explicit `level` parameter (the source only ever mutates it in
balanced increment/decrement pairs around block recursion).  The
`_emit_block` recursion appears as `emit_block_children` (its child loop)
followed by `finish_block` (its header/trailing assembly).  Instruction
kinds without a branch (`comment_block`, `ir_direction`, `ir_strength`)
produce no lines.  The only failing path is a literal `wait` whose
seconds value is not a number, where `int(seconds * 1000)` raises. -/
def generate_instruction (ctx : GenCtx) (level : Nat) (i : Instr) : Except String (List String) :=
  match i with
  | ⟨d, lineno, end_lineno, _⟩ =>
    let ind := indent_str_times level
    match d with
    | .motorStartSpeed motor speed =>
        let const_name := py_upper motor
        if cfg_get ctx.config "convert_percent_to_dps" then
          .ok [ind ++ "motor.run(" ++ const_name ++ ", percent_to_dps(" ++ pyStr speed ++ ", " ++ const_name ++ "_REVERSED))"]
        else
          .ok [ind ++ "motor.run(" ++ const_name ++ ", apply_direction(" ++ pyStr speed ++ ", " ++ const_name ++ "_REVERSED))"]
    | .motorStartExpr motor speed_expr =>
        let const_name := py_upper motor
        let expr := translate_expression ctx.tables speed_expr
        if cfg_get ctx.config "convert_percent_to_dps" then
          .ok [ind ++ "motor.run(" ++ const_name ++ ", percent_to_dps(" ++ expr ++ ", " ++ const_name ++ "_REVERSED))"]
        else
          .ok [ind ++ "motor.run(" ++ const_name ++ ", apply_direction(int(" ++ expr ++ "), " ++ const_name ++ "_REVERSED))"]
    | .motorStop motor =>
        .ok [ind ++ "motor.stop(" ++ py_upper motor ++ ")"]
    | .waitSeconds seconds =>
        match wait_ms seconds with
        | some ms => .ok [ind ++ "await runloop.sleep_ms(" ++ toString ms ++ ")"]
        | Option.none => .error "int(seconds * 1000) raises on a non-numeric wait literal"
    | .waitExpr seconds_expr =>
        let expr := translate_expression ctx.tables seconds_expr
        .ok [ind ++ "await runloop.sleep_ms(int(" ++ expr ++ " * 1000))"]
    | .printMsg message =>
        .ok [ind ++ "print(" ++ pyRepr message ++ ")"]
    | .printExpr expression =>
        .ok [ind ++ "print(" ++ translate_expression ctx.tables expression ++ ")"]
    | .assignI var expression =>
        let expr := translate_expression ctx.tables expression
        if pyIn "(" expr && !(BUILTIN_GETTER_SUBSTRINGS.any (fun s => pyIn s expr)) then
          .ok [ind ++ var ++ " = await " ++ expr]
        else
          .ok [ind ++ var ++ " = " ++ expr]
    | .forI target iter body =>
        match emit_block_children ctx level body (py_or lineno 0 + 1) with
        | .error e => .error e
        | .ok res =>
            .ok (finish_block ctx level ("for " ++ target ++ " in " ++ translate_expression ctx.tables iter ++ ":") end_lineno res)
    | .whileI condition body =>
        match emit_block_children ctx level body (py_or lineno 0 + 1) with
        | .error e => .error e
        | .ok res =>
            .ok (finish_block ctx level ("while " ++ translate_expression ctx.tables condition ++ ":") end_lineno res)
    | .ifI condition body orelse =>
        match emit_block_children ctx level body (py_or lineno 0 + 1) with
        | .error e => .error e
        | .ok res =>
            let main := finish_block ctx level ("if " ++ translate_expression ctx.tables condition ++ ":") end_lineno res
            if orelse.isEmpty then .ok main
            else
              match gen_instr_list ctx (level + 1) orelse with
              | .error e => .error e
              | .ok else_lines => .ok (main ++ [ind ++ "else:"] ++ else_lines)
    | .breakI => .ok [ind ++ "break"]
    | .functionDefI name params body =>
        match emit_block_children ctx level body (py_or lineno 0 + 1) with
        | .error e => .error e
        | .ok res =>
            .ok (finish_block ctx level ("async def " ++ name ++ "(" ++ String.intercalate ", " params ++ "):") end_lineno res ++ [""])
    | .returnI value expression =>
        match value with
        | .none =>
            match expression with
            | some e => .ok [ind ++ "return " ++ translate_expression ctx.tables e]
            | Option.none => .ok [ind ++ "return"]
        | v => .ok [ind ++ "return " ++ pyRepr v]
    | .functionCall name args =>
        let rendered := args.map (fun a =>
          match a with
          | .constant c => pyRepr c
          | .expression e => translate_expression ctx.tables e)
        .ok [ind ++ "await " ++ name ++ "(" ++ String.intercalate ", " rendered ++ ")"]
    | .commentBlock _ => .ok []
    | .irDirection => .ok []
    | .irStrength => .ok []

/-- The child loop of `_emit_block`, threading the block-local cursor,
with the body of `_emit_child_instr` (generate the child one level
deeper, append its inline comments, advance the cursor) inlined at the
recursive call. -/
def emit_block_children (ctx : GenCtx) (level : Nat) :
    List Instr → Nat → Except String (List String × Nat)
  | [], c => .ok ([], c)
  | child :: rest, c =>
      let child_L := py_or child.lineno c
      let cmts := emit_standalone_between ctx c child_L (indent_str_times (level + 1))
      match generate_instruction ctx (level + 1) child with
      | .error e => .error e
      | .ok child_lines =>
          let child_lines :=
            if child_lines.isEmpty then child_lines
            else append_inline ctx (py_or child.lineno 0) child_lines
          let c' := py_or child.end_lineno (py_or child.lineno 0) + 1
          match emit_block_children ctx level rest c' with
          | .error e => .error e
          | .ok (rest_lines, c_end) => .ok (cmts ++ child_lines ++ rest_lines, c_end)

/-- The `orelse` rendering loop of the `if` branch (no comment
interleaving, matching the source's asymmetry). -/
def gen_instr_list (ctx : GenCtx) (level : Nat) : List Instr → Except String (List String)
  | [] => .ok []
  | i :: rest =>
      match generate_instruction ctx level i with
      | .error e => .error e
      | .ok lines =>
          match gen_instr_list ctx level rest with
          | .error e => .error e
          | .ok rest_lines => .ok (lines ++ rest_lines)

end

mutual

/-- Embedding of `_get_used_motors` over a block: collect the motor names
of `motor_start`/`motor_stop` instructions (skipping an empty name, as the
source's truthiness test does) and recurse into the nested blocks.  The
source accumulates into a set; the duplicates are removed before the only
consumer, `sorted(used_motors)`. -/
def used_motors_list : List Instr → List String
  | [] => []
  | i :: rest => used_motors_instr i ++ used_motors_list rest

/-- Motor names used by a single instruction. -/
def used_motors_instr : Instr → List String
  | ⟨d, _, _, _⟩ =>
    match d with
    | .motorStartSpeed m _ => if m == "" then [] else [m]
    | .motorStartExpr m _ => if m == "" then [] else [m]
    | .motorStop m => if m == "" then [] else [m]
    | .forI _ _ body => used_motors_list body
    | .whileI _ body => used_motors_list body
    | .ifI _ body orelse => used_motors_list body ++ used_motors_list orelse
    | .functionDefI _ _ body => used_motors_list body
    | _ => []

end

/-- Set-like deduplication, keeping first occurrences. -/
def dedup_strings (seen : List String) : List String → List String
  | [] => []
  | x :: xs => if seen.contains x then dedup_strings seen xs else x :: dedup_strings (x :: seen) xs

/-- The `sorted(used_motors)` value of `generate`. -/
def sorted_used_motors (instructions : List Instr) : List String :=
  py_sorted (fun a b => a < b) (dedup_strings [] (used_motors_list instructions))

/-- The values of the expression-bearing dictionary keys that
`_uses_sensor` searches (`expression`, `speed_expr`, `seconds_expr`,
`condition`, `iter`). -/
def expr_fields : IData → List String
  | .printExpr e => [e]
  | .assignI _ e => [e]
  | .returnI _ (some e) => [e]
  | .motorStartExpr _ e => [e]
  | .waitExpr e => [e]
  | .whileI c _ => [c]
  | .ifI c _ _ => [c]
  | .forI _ it _ => [it]
  | _ => []

mutual

/-- Embedding of `_uses_sensor` over a block. -/
def uses_sensor_list : List Instr → String → Bool
  | [], _ => false
  | i :: rest, sensor_name => uses_sensor_instr i sensor_name || uses_sensor_list rest sensor_name

/-- Embedding of `_uses_sensor` on a single instruction: the IR-sensor
instruction kinds, a substring search of the sensor name over the
expression-bearing fields (`expression`, `speed_expr`, `seconds_expr`,
`condition`, `iter`), and recursion into nested blocks. -/
def uses_sensor_instr : Instr → String → Bool
  | ⟨d, _, _, _⟩, sensor_name =>
    (match d with
     | .irDirection => sensor_name == "ir_sensor"
     | .irStrength => sensor_name == "ir_sensor"
     | _ => false) ||
    (expr_fields d).any (fun s => pyIn sensor_name s) ||
    (match d with
     | .forI _ _ body => uses_sensor_list body sensor_name
     | .whileI _ body => uses_sensor_list body sensor_name
     | .ifI _ body orelse => uses_sensor_list body sensor_name || uses_sensor_list orelse sensor_name
     | .functionDefI _ _ body => uses_sensor_list body sensor_name
     | _ => false)

end

/-- The main emission loop of `generate`: instructions in sorted order,
standalone comments flushed up to each instruction's start line, inline
comments appended, the cursor advanced past each instruction's end line,
and a final flush over the rest of the source. -/
def gen_body (ctx : GenCtx) : List Instr → Nat → Except String (List String)
  | [], cursor => .ok (emit_standalone_until ctx "    " cursor (ctx.src_lines.length + 1)).1
  | i :: rest, cursor =>
      let L := py_or i.lineno cursor
      let flushed := emit_standalone_until ctx "    " cursor L
      match generate_instruction ctx 1 i with
      | .error e => .error e
      | .ok emitted =>
          let emitted := if emitted.isEmpty then emitted else append_inline ctx L emitted
          let c2 := max flushed.2 (py_or i.end_lineno L + 1)
          match gen_body ctx rest c2 with
          | .error e => .error e
          | .ok out => .ok (flushed.1 ++ emitted ++ out)

/-- The part of `SpikeCodeGenerator.generate` before the body emission
loop: fixed imports, conditional sensor imports and notes, the optional
percent-to-dps and distance helpers, the port-configuration banner,
per-motor and per-sensor constants, and the `main` header.  (The source
computes the device-usage flags once and shares them with the loop; the
split recomputes the same values.) -/
def generate_preamble (t : TranslationTables) (config : List (String × Bool))
    (instructions : List Instr) : List String :=
  let used := sorted_used_motors instructions
  let uses_color := uses_sensor_list instructions "color_sensor"
  let uses_distance := uses_sensor_list instructions "distance_sensor"
  let uses_ir := uses_sensor_list instructions "ir_sensor"
  let uses_gyro := uses_sensor_list instructions "gyro_sensor"
  ["from hub import light_matrix, port", "import runloop", "import motor"]
    ++ (match sensor_import "color_sensor" with
        | some s => if uses_color then [s] else []
        | Option.none => [])
    ++ (match sensor_import "distance_sensor" with
        | some s => if uses_distance then [s] else []
        | Option.none => [])
    ++ (match sensor_import "gyro_sensor" with
        | some s => if uses_gyro then [s] else []
        | Option.none => [])
    ++ (match sensor_import "ir_sensor" with
        | some s => if uses_ir then [s] else []
        | Option.none => [])
    ++ (if uses_ir then [""] ++ note_lines EDUCATIONAL_NOTES_ir_sensor else [])
    ++ (if !used.isEmpty && cfg_get config "convert_percent_to_dps" then
          [ ""
          , "# Helper function for motor control"
          , "def percent_to_dps(percent, reversed=False):"
          , "    \"\"\"Convert -100 to 100% to degrees per second, applying direction.\"\"\""
          , "    # Clamp to -100 to 100 range"
          , "    speed = int(max(-100, min(100, percent)) * " ++ toString t.max_speed_dps ++ " / 100)"
          , "    return -speed if reversed else speed"
          ]
        else [])
    ++ (if uses_distance && cfg_get_default config "include_distance_helper" true then
          [""] ++ note_lines EDUCATIONAL_NOTES_distance_sensor_helper ++
          [ "def get_distance():"
          , "    \"\"\"Get distance in cm, returns 200 when nothing detected.\"\"\""
          , "    dist = distance_sensor.distance(DISTANCE_SENSOR)"
          , "    if dist == -1:"
          , "        return 200"
          , "    return dist / 10"
          ]
        else [])
    ++ [""]
    ++ (if cfg_get config "include_port_config_note" then
          note_lines EDUCATIONAL_NOTES_port_configuration ++ [""]
        else [])
    ++ ["# Motor configuration"]
    ++ used.flatMap (fun motor_name =>
          [ py_upper motor_name ++ " = " ++ get_motor_port t motor_name
          , py_upper motor_name ++ "_REVERSED = " ++ (if is_motor_reversed t motor_name then "True" else "False")
          ])
    ++ (if uses_color || uses_distance || uses_ir then ["", "# Sensor configuration"] else [])
    ++ (if uses_color then ["COLOR_SENSOR = " ++ get_sensor_port t "color_sensor"] else [])
    ++ (if uses_distance then ["DISTANCE_SENSOR = " ++ get_sensor_port t "distance_sensor"] else [])
    ++ (if uses_ir then ["IR_SEEKER_PORT = " ++ get_sensor_port t "ir_seeker"] else [])
    ++ [""]
    ++ ["async def main():"]

/-- Embedding of `SpikeCodeGenerator.generate`, as the list of emitted
lines (the method returns their `"\n"`-join): the preamble above, the
comment-interleaved body, and the fixed trailer. -/
def generate_lines (t : TranslationTables) (config : List (String × Bool))
    (instructions : List Instr) (src : String) : Except String (List String) :=
  let collected := collect_comments src
  let ctx : GenCtx := ⟨t, config, collected.1, collected.2.1, collected.2.2⟩
  match gen_body ctx (py_sorted instr_lt instructions) 1 with
  | .error e => .error e
  | .ok out => .ok (generate_preamble t config instructions ++ out ++ ["", "runloop.run(main())"])

/-- Embedding of the module-level entry `generate_spike_code` together
with `SpikeCodeGenerator.__init__`: merge the per-request overrides over
`GENERATION_CONFIG` into the instance configuration (`{**GENERATION_CONFIG,
**(config_overrides or {})}`) and run `generate`. -/
def generate_spike_code (t : TranslationTables) (instructions : List Instr)
    (src : String) (config_overrides : List (String × Bool)) : Except String String :=
  let config := dict_merge t.generation_config config_overrides
  (generate_lines t config instructions src).map (String.intercalate "\n")

/-- A translation request as a state-passing function over the
process-wide tables: the request reads them (and merges its overrides
into a request-scoped configuration) but has no operation that writes
them, so the post-state is the table value it was given. -/
def translate_request (t : TranslationTables) (config_overrides : List (String × Bool))
    (instructions : List Instr) (src : String) : Except String String × TranslationTables :=
  (generate_spike_code t instructions src config_overrides, t)

/- ## Claim-support definitions -/

/-- The statement shapes for which `parse_stmt` has a branch that can
produce an instruction or raise: string-constant expression statements,
(awaited) call statements, single-name assignments, `for`, `while`,
`if`, `break`, function definitions and `return`.  Every other shape
falls through to `return None`. -/
def shape_recognized : Stmt → Bool
  | .exprS (.const (.str _)) _ => true
  | .exprS (.call _ _) _ => true
  | .exprS (.awaitE (.call _ _)) _ => true
  | .exprS _ _ => false
  | .assignS [.name _] _ _ => true
  | .assignS _ _ _ => false
  | .forS _ _ _ _ => true
  | .whileS _ _ _ => true
  | .ifS _ _ _ _ => true
  | .breakS _ => true
  | .functionDefS _ _ _ _ => true
  | .returnS _ _ => true
  | .passS _ => false
  | .importS _ _ => false

/-- The amended classification contract of a `wait` argument, stated
from the claim side: any constant (of whatever type) becomes the literal
`seconds` field; otherwise an expression accepted by the numeric
validator becomes `seconds_expr` carrying its verbatim text (a unary
minus over a literal takes this path — it is not folded); anything else
is a hard error. -/
def wait_arg_class (arg : Expr) : Except String IData :=
  match arg with
  | .const c => .ok (.waitSeconds c)
  | _ =>
      if is_numeric_expr arg then .ok (.waitExpr (unparse arg))
      else .error "wait() expects a numeric expression in seconds."

/-- The statement `motor_a.start("fast")` of the specification's hard
error example. -/
def c1_stmt : Stmt :=
  .exprS (.call (.attribute (.name "motor_a") "start") [.const (.str "fast")]) (1, 1)

/-- The instruction the recognizer actually produces for `c1_stmt`. -/
def c1_instr : Instr := ⟨.motorStartSpeed "a" (.str "fast"), some 1, some 1, false⟩

/-- The source text of testable property 4: `x = 5\nmotor_a.start(x)\n#
stop now\nmotor_a.stop()\n`. -/
def c8_src : String := "x = 5\nmotor_a.start(x)\n# stop now\nmotor_a.stop()\n"

/-- The syntax tree of `c8_src`. -/
def c8_prog : List Stmt :=
  [ .assignS [.name "x"] (.const (.int 5)) (1, 1)
  , .exprS (.call (.attribute (.name "motor_a") "start") [.name "x"]) (2, 2)
  , .exprS (.call (.attribute (.name "motor_a") "stop") []) (4, 4)
  ]

/-- The instructions recognition produces for `c8_prog`. -/
def c8_instrs : List Instr :=
  [ ⟨.assignI "x" "5", some 1, some 1, false⟩
  , ⟨.motorStartExpr "a" "x", some 2, some 2, false⟩
  , ⟨.motorStop "a", some 4, some 4, false⟩
  ]

/-- The generated preamble for a program whose only device is one motor
channel named `letter`, under the default configuration (everything from
the import block through `async def main():`). -/
def motor_only_preamble (letter : String) : List String :=
  [ "from hub import light_matrix, port", "import runloop", "import motor"
  , ""
  , "# Helper function for motor control"
  , "def percent_to_dps(percent, reversed=False):"
  , "    \"\"\"Convert -100 to 100% to degrees per second, applying direction.\"\"\""
  , "    # Clamp to -100 to 100 range"
  , "    speed = int(max(-100, min(100, percent)) * 720 / 100)"
  , "    return -speed if reversed else speed"
  , ""
  , "# IMPORTANT: Configure ports and directions below to match your robot"
  , "# If a motor runs backwards, change its REVERSED flag to True"
  , ""
  , "# Motor configuration"
  , py_upper letter ++ " = " ++ get_motor_port THE_TABLES letter
  , py_upper letter ++ "_REVERSED = " ++ (if is_motor_reversed THE_TABLES letter then "True" else "False")
  , ""
  , "async def main():"
  ]

/- ## Claim-side grammars for the expression validators -/

/-- The numeric-expression grammar as the specification states it:
numeric literals (`bool` is numeric: Python `bool` is a subclass of
`int`), bare identifiers, unary plus/minus, binary `+ - * /`, subscripts
over accepted base and index, and calls whose callee is an attribute
chain whose reconstructed dotted name is an exact member of the
allow-list, with every argument accepted. -/
inductive NumericGrammar : Expr → Prop where
  | lit (n : Int) : NumericGrammar (.const (.int n))
  | boolLit (b : Bool) : NumericGrammar (.const (.bool b))
  | name (x : String) : NumericGrammar (.name x)
  | unary (op : UOp) (e : Expr) :
      (op = .uadd ∨ op = .usub) → NumericGrammar e → NumericGrammar (.unaryOp op e)
  | bin (l r : Expr) (op : BOp) :
      (op = .add ∨ op = .sub ∨ op = .mult ∨ op = .div) →
      NumericGrammar l → NumericGrammar r → NumericGrammar (.binOp l op r)
  | subsc (b ix : Expr) :
      NumericGrammar b → NumericGrammar ix → NumericGrammar (.subscript b ix)
  | callAllowed (v : Expr) (attr : String) (args : List Expr) (dotted : String) :
      dotted_name (.attribute v attr) [] = some dotted →
      dotted ∈ ALLOWED_ATTR_CALLS →
      (∀ a ∈ args, NumericGrammar a) →
      NumericGrammar (.call (.attribute v attr) args)

/-- The boolean-expression grammar as the specification states it:
boolean literals, bare identifiers, any comparison, `and`/`or` with every
operand accepted, `not` over an accepted expression. -/
inductive BooleanGrammar : Expr → Prop where
  | boolLit (b : Bool) : BooleanGrammar (.const (.bool b))
  | name (x : String) : BooleanGrammar (.name x)
  | cmp (l : Expr) (ops : List CmpOp) (rs : List Expr) :
      BooleanGrammar (.compare l ops rs)
  | combo (op : BoolOpK) (vs : List Expr) :
      (∀ v ∈ vs, BooleanGrammar v) → BooleanGrammar (.boolOp op vs)
  | notE (e : Expr) : BooleanGrammar e → BooleanGrammar (.unaryOp .unot e)

/-- Membership form of `list_all_numeric`. -/
theorem list_all_numeric_of_forall :
    ∀ l : List Expr, (∀ a ∈ l, is_numeric_expr a = true) → list_all_numeric l = true
  | [], _ => rfl
  | a :: rest, h => by
      simp only [list_all_numeric, Bool.and_eq_true]
      exact ⟨h a (List.mem_cons_self a rest),
        list_all_numeric_of_forall rest (fun x hx => h x (List.mem_cons_of_mem a hx))⟩

/-- Membership form of `list_all_boolean`. -/
theorem list_all_boolean_of_forall :
    ∀ l : List Expr, (∀ a ∈ l, is_boolean_expr a = true) → list_all_boolean l = true
  | [], _ => rfl
  | a :: rest, h => by
      simp only [list_all_boolean, Bool.and_eq_true]
      exact ⟨h a (List.mem_cons_self a rest),
        list_all_boolean_of_forall rest (fun x hx => h x (List.mem_cons_of_mem a hx))⟩

mutual

/-- Acceptance by `is_numeric_expr` yields a grammar derivation. -/
theorem numeric_sound : ∀ e : Expr, is_numeric_expr e = true → NumericGrammar e
  | .const (.int n), _ => NumericGrammar.lit n
  | .const (.bool b), _ => NumericGrammar.boolLit b
  | .const (.str _), h => absurd h (by simp [is_numeric_expr])
  | .const .none, h => absurd h (by simp [is_numeric_expr])
  | .name x, _ => NumericGrammar.name x
  | .unaryOp .uadd e, h =>
      NumericGrammar.unary .uadd e (Or.inl rfl)
        (numeric_sound e (by simpa [is_numeric_expr] using h))
  | .unaryOp .usub e, h =>
      NumericGrammar.unary .usub e (Or.inr rfl)
        (numeric_sound e (by simpa [is_numeric_expr] using h))
  | .unaryOp .unot _, h => absurd h (by simp [is_numeric_expr])
  | .binOp l op r, h => by
      cases op with
      | add =>
          have h' := h
          simp only [is_numeric_expr, Bool.and_eq_true] at h'
          exact NumericGrammar.bin l r .add (by simp)
            (numeric_sound l h'.1) (numeric_sound r h'.2)
      | sub =>
          have h' := h
          simp only [is_numeric_expr, Bool.and_eq_true] at h'
          exact NumericGrammar.bin l r .sub (by simp)
            (numeric_sound l h'.1) (numeric_sound r h'.2)
      | mult =>
          have h' := h
          simp only [is_numeric_expr, Bool.and_eq_true] at h'
          exact NumericGrammar.bin l r .mult (by simp)
            (numeric_sound l h'.1) (numeric_sound r h'.2)
      | div =>
          have h' := h
          simp only [is_numeric_expr, Bool.and_eq_true] at h'
          exact NumericGrammar.bin l r .div (by simp)
            (numeric_sound l h'.1) (numeric_sound r h'.2)
      | mod => exact absurd h (by simp [is_numeric_expr])
      | pow => exact absurd h (by simp [is_numeric_expr])
      | floordiv => exact absurd h (by simp [is_numeric_expr])
  | .subscript v ix, h => by
      have h' := h
      simp only [is_numeric_expr, Bool.and_eq_true] at h'
      exact NumericGrammar.subsc v ix (numeric_sound v h'.1) (numeric_sound ix h'.2)
  | .call (.attribute v a) args, h => by
      have h' := h
      simp only [is_numeric_expr, Bool.and_eq_true] at h'
      obtain ⟨h1, h2⟩ := h'
      unfold is_allowed_attr_call at h1
      cases hd : dotted_name (.attribute v a) [] with
      | none => rw [hd] at h1; exact absurd h1 (by simp)
      | some dotted =>
          rw [hd] at h1
          exact NumericGrammar.callAllowed v a args dotted hd
            (by simpa using h1) (list_numeric_sound args h2)
  | .call (.const _) _, h => absurd h (by simp [is_numeric_expr])
  | .call (.name _) _, h => absurd h (by simp [is_numeric_expr])
  | .call (.unaryOp _ _) _, h => absurd h (by simp [is_numeric_expr])
  | .call (.binOp _ _ _) _, h => absurd h (by simp [is_numeric_expr])
  | .call (.boolOp _ _) _, h => absurd h (by simp [is_numeric_expr])
  | .call (.compare _ _ _) _, h => absurd h (by simp [is_numeric_expr])
  | .call (.call _ _) _, h => absurd h (by simp [is_numeric_expr])
  | .call (.subscript _ _) _, h => absurd h (by simp [is_numeric_expr])
  | .call (.listE _) _, h => absurd h (by simp [is_numeric_expr])
  | .call (.awaitE _) _, h => absurd h (by simp [is_numeric_expr])
  | .boolOp _ _, h => absurd h (by simp [is_numeric_expr])
  | .compare _ _ _, h => absurd h (by simp [is_numeric_expr])
  | .attribute _ _, h => absurd h (by simp [is_numeric_expr])
  | .listE _, h => absurd h (by simp [is_numeric_expr])
  | .awaitE _, h => absurd h (by simp [is_numeric_expr])

/-- Acceptance by `list_all_numeric` yields derivations for every
member. -/
theorem list_numeric_sound :
    ∀ l : List Expr, list_all_numeric l = true → ∀ a ∈ l, NumericGrammar a
  | [], _, _, hx => absurd hx (List.not_mem_nil _)
  | a :: rest, h, x, hx => by
      have h' := h
      simp only [list_all_numeric, Bool.and_eq_true] at h'
      cases List.mem_cons.mp hx with
      | inl he => exact he ▸ numeric_sound a h'.1
      | inr hm => exact list_numeric_sound rest h'.2 x hm

end

/-- A grammar derivation yields acceptance by `is_numeric_expr`. -/
theorem numeric_complete (e : Expr) (h : NumericGrammar e) : is_numeric_expr e = true := by
  induction h with
  | lit n => simp [is_numeric_expr]
  | boolLit b => simp [is_numeric_expr]
  | name x => simp [is_numeric_expr]
  | unary op e hop _ ih =>
      cases hop with
      | inl h1 => subst h1; simpa [is_numeric_expr] using ih
      | inr h1 => subst h1; simpa [is_numeric_expr] using ih
  | bin l r op hop _ _ ihl ihr =>
      rcases hop with h1 | h1 | h1 | h1 <;> subst h1 <;>
        simp [is_numeric_expr, ihl, ihr]
  | subsc b ix _ _ ihb ihix => simp [is_numeric_expr, ihb, ihix]
  | callAllowed v attr args dotted hd hmem _ ih =>
      simp only [is_numeric_expr, Bool.and_eq_true]
      refine ⟨?_, list_all_numeric_of_forall args ih⟩
      unfold is_allowed_attr_call
      rw [hd]
      simpa using hmem

mutual

/-- Acceptance by `is_boolean_expr` yields a grammar derivation. -/
theorem boolean_sound : ∀ e : Expr, is_boolean_expr e = true → BooleanGrammar e
  | .const (.bool b), _ => BooleanGrammar.boolLit b
  | .const (.int _), h => absurd h (by simp [is_boolean_expr])
  | .const (.str _), h => absurd h (by simp [is_boolean_expr])
  | .const .none, h => absurd h (by simp [is_boolean_expr])
  | .name x, _ => BooleanGrammar.name x
  | .compare l ops rs, _ => BooleanGrammar.cmp l ops rs
  | .boolOp op vs, h =>
      BooleanGrammar.combo op vs
        (list_boolean_sound vs (by simpa [is_boolean_expr] using h))
  | .unaryOp .unot e, h =>
      BooleanGrammar.notE e (boolean_sound e (by simpa [is_boolean_expr] using h))
  | .unaryOp .uadd _, h => absurd h (by simp [is_boolean_expr])
  | .unaryOp .usub _, h => absurd h (by simp [is_boolean_expr])
  | .binOp _ _ _, h => absurd h (by simp [is_boolean_expr])
  | .subscript _ _, h => absurd h (by simp [is_boolean_expr])
  | .call _ _, h => absurd h (by simp [is_boolean_expr])
  | .attribute _ _, h => absurd h (by simp [is_boolean_expr])
  | .listE _, h => absurd h (by simp [is_boolean_expr])
  | .awaitE _, h => absurd h (by simp [is_boolean_expr])

/-- Acceptance by `list_all_boolean` yields derivations for every
member. -/
theorem list_boolean_sound :
    ∀ l : List Expr, list_all_boolean l = true → ∀ a ∈ l, BooleanGrammar a
  | [], _, _, hx => absurd hx (List.not_mem_nil _)
  | a :: rest, h, x, hx => by
      have h' := h
      simp only [list_all_boolean, Bool.and_eq_true] at h'
      cases List.mem_cons.mp hx with
      | inl he => exact he ▸ boolean_sound a h'.1
      | inr hm => exact list_boolean_sound rest h'.2 x hm

end

/-- A grammar derivation yields acceptance by `is_boolean_expr`. -/
theorem boolean_complete (e : Expr) (h : BooleanGrammar e) : is_boolean_expr e = true := by
  induction h with
  | boolLit b => simp [is_boolean_expr]
  | name x => simp [is_boolean_expr]
  | cmp l ops rs => simp [is_boolean_expr]
  | combo op vs _ ih =>
      simpa [is_boolean_expr] using list_all_boolean_of_forall vs ih
  | notE e _ ih => simpa [is_boolean_expr] using ih

/- ## Claim theorems -/

/-- C2: the numeric-expression validator accepts an expression exactly
when it is built from numeric literals (with Python booleans numeric,
`bool` being a subclass of `int`), bare identifiers, unary sign, binary
`+ - * /`, subscripts with accepted base and index, and allow-listed
dotted attribute calls with accepted arguments; every other shape — a
disallowed call, a string literal, a boolean operator, a comparison —
admits no derivation and is rejected. -/
theorem c2_numeric_validator_iff (e : Expr) :
    is_numeric_expr e = true ↔ NumericGrammar e :=
  ⟨numeric_sound e, numeric_complete e⟩

/-- C3: the boolean-expression validator accepts an expression exactly
when it is a boolean literal, a bare identifier, any comparison
(including comparisons against string literals), an `and`/`or`
combination of accepted operands, or `not` over an accepted expression;
every other shape, arithmetic expressions and disallowed calls included,
admits no derivation and is rejected. -/
theorem c3_boolean_validator_iff (e : Expr) :
    is_boolean_expr e = true ↔ BooleanGrammar e :=
  ⟨boolean_sound e, boolean_complete e⟩

/-- C10: the numeric-literal check of the numeric-expression validator
treats a Python `bool` as an `int`, so both boolean literals pass the
numeric grammar; consequently `wait(True)` is classified as a valid wait
(with literal seconds `True`) and a motor speed built from `True` is
classified as a validated numeric expression rather than rejected. -/
theorem c10_bool_numeric :
    is_numeric_expr (.const (.bool true)) = true ∧
    is_numeric_expr (.const (.bool false)) = true ∧
    parse_call (.name "wait") [.const (.bool true)] =
      .ok (some (.waitSeconds (.bool true))) ∧
    parse_call (.attribute (.name "motor_a") "start")
        [.binOp (.name "x") .add (.const (.bool true))] =
      .ok (some (.motorStartExpr "a" "x + True")) :=
  ⟨rfl, rfl, rfl, rfl⟩

/-- C1 (code evaluation at the failing input): for
`motor_a.start("fast")` the recognizer does not raise — the string
constant `"fast"` is accepted by the `isinstance(arg, ast.Constant)`
branch and carried as the literal `speed` field — and generation then
proceeds, rendering `percent_to_dps(fast, A_REVERSED)`.  The claim (and
the specification's testable property 5) requires a hard error here
instead. -/
theorem c1_code_evaluation :
    parse_stmt c1_stmt = .ok (some c1_instr) ∧
    convert_ast_to_instructions [c1_stmt] = .ok [c1_instr] ∧
    generate_lines THE_TABLES GENERATION_CONFIG [c1_instr] "motor_a.start(\"fast\")" =
      .ok (motor_only_preamble "a" ++
        ["    motor.run(A, percent_to_dps(fast, A_REVERSED))"] ++
        ["", "runloop.run(main())"]) :=
  ⟨rfl, rfl, rfl⟩

/-- C6 (counterexample): `wait(-5)` is not folded to a literal
`seconds = -5` — the `wait` branch has no unary-minus case, so the
argument takes the numeric-expression path and is recorded as
`seconds_expr = "-5"`; and `wait("fast")` is accepted as a literal
`seconds = "fast"` rather than raising, because any constant passes the
literal branch. -/
theorem c6_counterexample :
    parse_stmt (.exprS (.call (.name "wait") [.unaryOp .usub (.const (.int 5))]) (1, 1)) =
      .ok (some ⟨.waitExpr "-5", some 1, some 1, false⟩) ∧
    parse_stmt (.exprS (.call (.name "wait") [.unaryOp .usub (.const (.int 5))]) (1, 1)) ≠
      .ok (some ⟨.waitSeconds (.int (-5)), some 1, some 1, false⟩) ∧
    parse_stmt (.exprS (.call (.name "wait") [.const (.str "fast")]) (1, 1)) =
      .ok (some ⟨.waitSeconds (.str "fast"), some 1, some 1, false⟩) := by
  refine ⟨rfl, ?_, rfl⟩
  intro h
  rw [show parse_stmt (.exprS (.call (.name "wait") [.unaryOp .usub (.const (.int 5))]) (1, 1)) =
      .ok (some ⟨.waitExpr "-5", some 1, some 1, false⟩) from rfl] at h
  injection h with h1
  injection h1 with h2
  injection h2 with h3
  exact IData.noConfusion h3

/-- C6 (amended): `wait(arg)` with at least one argument classifies the
first argument as `wait_arg_class` states: any constant becomes the
literal `seconds` field (strings included, with no unary-minus folding);
otherwise an expression the numeric validator accepts becomes
`seconds_expr` carrying the verbatim text; anything else is a hard
error. -/
theorem c6_amended_contract (arg : Expr) (rest : List Expr) :
    parse_call (.name "wait") (arg :: rest) = (wait_arg_class arg).map some := by
  cases arg <;> simp only [parse_call, wait_arg_class, Except.map] <;> (try rfl) <;>
    (split <;>
      first
        | (exact absurd rfl (by assumption))
        | (split <;> rename_i h <;> simp [h]))

/-- Appending blocks of statements appends their instruction sequences
(when neither side raises). -/
theorem parse_body_append (xs ys : List Stmt) (l1 l2 : List Instr)
    (h1 : parse_body xs = .ok l1) (h2 : parse_body ys = .ok l2) :
    parse_body (xs ++ ys) = .ok (l1 ++ l2) := by
  induction xs generalizing l1 with
  | nil =>
      simp only [parse_body] at h1
      cases h1
      simpa using h2
  | cons s rest ih =>
      rw [List.cons_append]
      simp only [parse_body] at h1 ⊢
      cases hps : parse_stmt s with
      | error e => rw [hps] at h1; cases h1
      | ok o =>
          rw [hps] at h1
          cases o with
          | none => exact ih l1 h1
          | some i =>
              cases hr : parse_body rest with
              | error e => rw [hr] at h1; cases h1
              | ok l =>
                  rw [hr] at h1
                  cases h1
                  show (match parse_body (rest ++ ys) with
                    | Except.error e => Except.error e
                    | Except.ok l => Except.ok (i :: l)) = Except.ok ((i :: l) ++ l2)
                  rw [ih l hr]
                  rfl

set_option linter.unusedTactic false in
/-- C4: a statement whose shape is outside the recognized whitelist
produces no instruction and raises no error, and the valid instructions
before and after it in the same block are still produced, in source
order. -/
theorem c4_silent_drop (s : Stmt) (pre post : List Stmt) (l1 l2 : List Instr)
    (h : shape_recognized s = false)
    (h1 : convert_ast_to_instructions pre = .ok l1)
    (h2 : convert_ast_to_instructions post = .ok l2) :
    parse_stmt s = .ok Option.none ∧
    convert_ast_to_instructions (pre ++ s :: post) = .ok (l1 ++ l2) := by
  have hs : parse_stmt s = .ok Option.none := by
    cases s with
    | exprS v loc =>
        cases v <;>
          first
            | rfl
            | (simp [shape_recognized] at h; done)
            | (rename_i x
               cases x <;> first | rfl | (simp [shape_recognized] at h; done))
    | assignS targets v loc =>
        match targets with
        | [] => rfl
        | [t] => cases t <;> first | rfl | (simp [shape_recognized] at h; done)
        | t1 :: _ :: _ => cases t1 <;> rfl
    | forS t i b loc => simp [shape_recognized] at h
    | whileS t b loc => simp [shape_recognized] at h
    | ifS t b o loc => simp [shape_recognized] at h
    | breakS loc => simp [shape_recognized] at h
    | functionDefS n p b loc => simp [shape_recognized] at h
    | returnS v loc => simp [shape_recognized] at h
    | passS loc => rfl
    | importS m loc => rfl
  refine ⟨hs, ?_⟩
  have hmid : parse_body (s :: post) = .ok l2 := by
    simp only [parse_body, hs]
    exact h2
  exact parse_body_append pre (s :: post) l1 l2 h1 hmid

/-- Witness for C4 at the multi-target assignment `a = b = 1` between
`motor_a.stop()` and `motor_b.stop()`. -/
theorem c4_silent_drop_witness :
    parse_stmt (.assignS [.name "a", .name "b"] (.const (.int 1)) (2, 2)) = .ok Option.none ∧
    convert_ast_to_instructions
      [ .exprS (.call (.attribute (.name "motor_a") "stop") []) (1, 1)
      , .assignS [.name "a", .name "b"] (.const (.int 1)) (2, 2)
      , .exprS (.call (.attribute (.name "motor_b") "stop") []) (3, 3) ] =
      .ok [ ⟨.motorStop "a", some 1, some 1, false⟩
          , ⟨.motorStop "b", some 3, some 3, false⟩ ] :=
  c4_silent_drop
    (.assignS [.name "a", .name "b"] (.const (.int 1)) (2, 2))
    [.exprS (.call (.attribute (.name "motor_a") "stop") []) (1, 1)]
    [.exprS (.call (.attribute (.name "motor_b") "stop") []) (3, 3)]
    [⟨.motorStop "a", some 1, some 1, false⟩]
    [⟨.motorStop "b", some 3, some 3, false⟩]
    rfl rfl rfl

/-- C5: a `while` or `if` whose condition the boolean-expression
validator rejects is a hard error carrying the exact source text of the
condition, no instruction is produced for the statement, and the error
propagates out of block conversion rather than being recovered. -/
theorem c5_condition_hard_error (test : Expr) (body orelse rest : List Stmt)
    (loc loc' : Nat × Nat) (h : is_boolean_expr test = false) :
    parse_stmt (.whileS test body loc) =
      .error ("while condition must be a boolean expression, got: " ++ unparse test) ∧
    parse_stmt (.ifS test body orelse loc') =
      .error ("if condition must be a boolean expression, got: " ++ unparse test) ∧
    convert_ast_to_instructions (.whileS test body loc :: rest) =
      .error ("while condition must be a boolean expression, got: " ++ unparse test) := by
  have hw : parse_stmt (.whileS test body loc) =
      .error ("while condition must be a boolean expression, got: " ++ unparse test) := by
    simp [parse_stmt, h]
  refine ⟨hw, ?_, ?_⟩
  · simp [parse_stmt, h]
  · simp only [convert_ast_to_instructions, parse_body, hw]

/-- Witness for C5 at the non-boolean condition `5`. -/
theorem c5_condition_hard_error_witness :
    parse_stmt (.whileS (.const (.int 5)) [] (1, 2)) =
      .error "while condition must be a boolean expression, got: 5" ∧
    parse_stmt (.ifS (.const (.int 5)) [] [] (1, 2)) =
      .error "if condition must be a boolean expression, got: 5" ∧
    convert_ast_to_instructions [.whileS (.const (.int 5)) [] (1, 2)] =
      .error "while condition must be a boolean expression, got: 5" :=
  c5_condition_hard_error (.const (.int 5)) [] [] [] (1, 2) (1, 2) rfl

/-- Lookup in the merged configuration `{**base, **overrides}`: an
override shadows the base entry, everything else falls through to the
base table. -/
theorem dict_get_merge (base overrides : List (String × Bool)) (k : String) :
    dict_get (dict_merge base overrides) k =
      (match dict_get overrides k with
       | some v => some v
       | Option.none => dict_get base k) := by
  induction overrides with
  | nil => simp [dict_get, dict_merge]
  | cons p rest ih =>
      simp only [dict_merge, dict_get, List.cons_append, List.find?] at ih ⊢
      cases hpk : p.1 == k with
      | true => simp [hpk]
      | false => simpa [hpk] using ih

/-- C9: a translation request leaves the process-wide configuration
tables exactly as it found them; a second request starting from the
post-state behaves as if it had started from the pristine tables; the
request-scoped configuration is the copy-on-read merge in which an
override shadows a toggle and every other toggle reads from the shared
table; and the generator instance reads only that merged copy. -/
theorem c9_tables_immutable (ov ov' : List (String × Bool))
    (instrs instrs' : List Instr) (src src' : String) :
    (translate_request THE_TABLES ov instrs src).2 = THE_TABLES ∧
    (translate_request (translate_request THE_TABLES ov instrs src).2 ov' instrs' src').1 =
      (translate_request THE_TABLES ov' instrs' src').1 ∧
    (∀ k, dict_get (dict_merge THE_TABLES.generation_config ov) k =
      (match dict_get ov k with
       | some v => some v
       | Option.none => dict_get THE_TABLES.generation_config k)) ∧
    (translate_request THE_TABLES ov instrs src).1 =
      (generate_lines THE_TABLES (dict_merge THE_TABLES.generation_config ov) instrs src).map
        (String.intercalate "\n") :=
  ⟨rfl, rfl, fun k => dict_get_merge THE_TABLES.generation_config ov k, rfl⟩

/-- With no standalone comments collected, the cursor walk emits
nothing. -/
theorem esu_go_std_nil (ctx : GenCtx) (hstd : ctx.standalone = []) (ind : String) :
    ∀ fuel cursor, (emit_standalone_until_go ctx ind fuel cursor).1 = []
  | 0, _ => rfl
  | fuel + 1, cursor => by
      simp only [emit_standalone_until_go, hstd]
      split
      · simpa using esu_go_std_nil ctx hstd ind fuel (cursor + 1)
      · rfl

/-- With no standalone comments and no inline comments, the main
emission loop of `generate` is exactly the plain instruction-rendering
loop. -/
theorem gen_body_no_comments (ctx : GenCtx) (hstd : ctx.standalone = [])
    (hinl : ctx.inline_comments = []) :
    ∀ (l : List Instr) (cursor : Nat), gen_body ctx l cursor = gen_instr_list ctx 1 l
  | [], cursor => by
      simp [gen_body, gen_instr_list, emit_standalone_until,
        esu_go_std_nil ctx hstd "    "]
  | i :: rest, cursor => by
      simp only [gen_body, gen_instr_list, emit_standalone_until,
        esu_go_std_nil ctx hstd "    ", append_inline, hinl, List.find?_nil, ite_self,
        List.nil_append]
      cases hg : generate_instruction ctx 1 i with
      | error e => rfl
      | ok emitted =>
          rw [gen_body_no_comments ctx hstd hinl rest _]

/-- A three-element list already in strictly ascending key order is left
unchanged by the stable sort. -/
theorem py_sorted_three {α : Type} (lt : α → α → Bool) (a b c : α)
    (h21 : lt b a = false) (h31 : lt c a = false) (h32 : lt c b = false) :
    py_sorted lt [a, b, c] = [a, b, c] := by
  simp [py_sorted, List.foldl, insert_stable, h21, h31, h32]

/-- C7: recognizing a program of one `motor_start` with a literal speed,
one `wait` with a literal duration and one `motor_stop`, in that source
order, and then generating, yields output in which the three rendered
statements appear in exactly that order, with the wait delay equal to
the literal duration multiplied exactly by 1000 (exact for the integer
literals of this embedding, where `int(seconds * 1000)` truncates
nothing); for the expression form of `wait`, the generated code instead
computes the multiply-by-1000-and-truncate at runtime as
`int(<expr> * 1000)`. -/
theorem c7_round_trip (mobj : String) (s d : Int) (l1 l2 l3 : Nat) (src : String)
    (hm : MOTOR_OBJECTS.contains mobj = true)
    (hl1 : 0 < l1) (hl12 : l1 < l2) (hl23 : l2 < l3)
    (hc : collect_comments src = ([], [], py_splitlines src)) :
    ∃ instrs pre post,
      convert_ast_to_instructions
        [ .exprS (.call (.attribute (.name mobj) "start") [.const (.int s)]) (l1, l1)
        , .exprS (.call (.name "wait") [.const (.int d)]) (l2, l2)
        , .exprS (.call (.attribute (.name mobj) "stop") []) (l3, l3) ] = .ok instrs ∧
      generate_lines THE_TABLES GENERATION_CONFIG instrs src =
        .ok (pre ++
          [ "    motor.run(" ++ py_upper (last_lower mobj) ++ ", percent_to_dps(" ++
              toString s ++ ", " ++ py_upper (last_lower mobj) ++ "_REVERSED))"
          , "    await runloop.sleep_ms(" ++ toString (d * 1000) ++ ")"
          , "    motor.stop(" ++ py_upper (last_lower mobj) ++ ")" ] ++ post) ∧
      (∀ (ctx : GenCtx) (e : String) (L E : Option Nat) (aw : Bool),
        generate_instruction ctx 1 ⟨.waitExpr e, L, E, aw⟩ =
          .ok ["    await runloop.sleep_ms(int(" ++ translate_expression ctx.tables e ++ " * 1000))"]) := by
  have hb1 : (l1 == 0) = false := by rw [beq_eq_false_iff_ne]; omega
  have hb2 : (l2 == 0) = false := by rw [beq_eq_false_iff_ne]; omega
  have hb3 : (l3 == 0) = false := by rw [beq_eq_false_iff_ne]; omega
  have hconv : convert_ast_to_instructions
      [ .exprS (.call (.attribute (.name mobj) "start") [.const (.int s)]) (l1, l1)
      , .exprS (.call (.name "wait") [.const (.int d)]) (l2, l2)
      , .exprS (.call (.attribute (.name mobj) "stop") []) (l3, l3) ] =
      .ok [ ⟨.motorStartSpeed (last_lower mobj) (.int s), some l1, some l1, false⟩
          , ⟨.waitSeconds (.int d), some l2, some l2, false⟩
          , ⟨.motorStop (last_lower mobj), some l3, some l3, false⟩ ] := by
    have hm' : mobj ∈ MOTOR_OBJECTS := by simpa using hm
    simp [convert_ast_to_instructions, parse_body, parse_stmt, parse_call, hm']
  have hctx : (⟨THE_TABLES, GENERATION_CONFIG, [], [],
      py_splitlines src⟩ : GenCtx).standalone = [] := rfl
  have hctx' : (⟨THE_TABLES, GENERATION_CONFIG, [], [],
      py_splitlines src⟩ : GenCtx).inline_comments = [] := rfl
  have k21 : instr_lt ⟨.waitSeconds (.int d), some l2, some l2, false⟩
      ⟨.motorStartSpeed (last_lower mobj) (.int s), some l1, some l1, false⟩ = false := by
    simp [instr_lt, sort_key, py_or, Instr.lineno, Instr.end_lineno, hb1, hb2]
    omega
  have k31 : instr_lt ⟨.motorStop (last_lower mobj), some l3, some l3, false⟩
      ⟨.motorStartSpeed (last_lower mobj) (.int s), some l1, some l1, false⟩ = false := by
    simp [instr_lt, sort_key, py_or, Instr.lineno, Instr.end_lineno, hb1, hb3]
    omega
  have k32 : instr_lt ⟨.motorStop (last_lower mobj), some l3, some l3, false⟩
      ⟨.waitSeconds (.int d), some l2, some l2, false⟩ = false := by
    simp [instr_lt, sort_key, py_or, Instr.lineno, Instr.end_lineno, hb2, hb3]
    omega
  have hbody : gen_body (⟨THE_TABLES, GENERATION_CONFIG, [], [], py_splitlines src⟩ : GenCtx)
      (py_sorted instr_lt
        [ ⟨.motorStartSpeed (last_lower mobj) (.int s), some l1, some l1, false⟩
        , ⟨.waitSeconds (.int d), some l2, some l2, false⟩
        , ⟨.motorStop (last_lower mobj), some l3, some l3, false⟩ ]) 1 =
      .ok [ "    motor.run(" ++ py_upper (last_lower mobj) ++ ", percent_to_dps(" ++
              toString s ++ ", " ++ py_upper (last_lower mobj) ++ "_REVERSED))"
          , "    await runloop.sleep_ms(" ++ toString (d * 1000) ++ ")"
          , "    motor.stop(" ++ py_upper (last_lower mobj) ++ ")" ] := by
    rw [py_sorted_three instr_lt _ _ _ k21 k31 k32,
      gen_body_no_comments _ hctx hctx']
    rfl
  have hgen : generate_lines THE_TABLES GENERATION_CONFIG
      [ ⟨.motorStartSpeed (last_lower mobj) (.int s), some l1, some l1, false⟩
      , ⟨.waitSeconds (.int d), some l2, some l2, false⟩
      , ⟨.motorStop (last_lower mobj), some l3, some l3, false⟩ ] src =
      .ok (generate_preamble THE_TABLES GENERATION_CONFIG
            [ ⟨.motorStartSpeed (last_lower mobj) (.int s), some l1, some l1, false⟩
            , ⟨.waitSeconds (.int d), some l2, some l2, false⟩
            , ⟨.motorStop (last_lower mobj), some l3, some l3, false⟩ ] ++
          [ "    motor.run(" ++ py_upper (last_lower mobj) ++ ", percent_to_dps(" ++
              toString s ++ ", " ++ py_upper (last_lower mobj) ++ "_REVERSED))"
          , "    await runloop.sleep_ms(" ++ toString (d * 1000) ++ ")"
          , "    motor.stop(" ++ py_upper (last_lower mobj) ++ ")" ] ++
          ["", "runloop.run(main())"]) := by
    simp only [generate_lines, hc]
    rw [hbody]
  exact ⟨_, _, _, hconv, hgen, fun ctx e L E aw => rfl⟩

set_option maxRecDepth 8192 in
/-- Witness for C7: `motor_a` at speed 50, a 2-second wait, and a stop
on lines 1, 2 and 3 of an empty comment-free source. -/
theorem c7_round_trip_witness :
    MOTOR_OBJECTS.contains "motor_a" = true ∧
    collect_comments "" = ([], [], py_splitlines "") ∧
    (∃ instrs pre post,
      convert_ast_to_instructions
        [ .exprS (.call (.attribute (.name "motor_a") "start") [.const (.int 50)]) (1, 1)
        , .exprS (.call (.name "wait") [.const (.int 2)]) (2, 2)
        , .exprS (.call (.attribute (.name "motor_a") "stop") []) (3, 3) ] = .ok instrs ∧
      generate_lines THE_TABLES GENERATION_CONFIG instrs "" =
        .ok (pre ++
          [ "    motor.run(A, percent_to_dps(50, A_REVERSED))"
          , "    await runloop.sleep_ms(2000)"
          , "    motor.stop(A)" ] ++ post) ∧
      (∀ (ctx : GenCtx) (e : String) (L E : Option Nat) (aw : Bool),
        generate_instruction ctx 1 ⟨.waitExpr e, L, E, aw⟩ =
          .ok ["    await runloop.sleep_ms(int(" ++ translate_expression ctx.tables e ++ " * 1000))"])) :=
  ⟨rfl, rfl,
    c7_round_trip "motor_a" 50 2 1 2 3 "" rfl (by decide) (by decide) (by decide) rfl⟩

set_option maxRecDepth 8192 in
/-- C8: recognizing the source text
`x = 5\nmotor_a.start(x)\n# stop now\nmotor_a.stop()\n` produces exactly
an `assign` instruction, a `motor_start` carrying `speed_expr = "x"` and
a `motor_stop`, in that order; and generation places the standalone
comment `# stop now` on its own line immediately before the rendered
`motor.stop` statement (standalone comments strictly between the cursor
and an instruction's start line are emitted before that instruction). -/
theorem c8_concrete_roundtrip :
    convert_ast_to_instructions c8_prog = .ok c8_instrs ∧
    ∃ pre post,
      generate_lines THE_TABLES GENERATION_CONFIG c8_instrs c8_src =
        .ok (pre ++ ["    # stop now", "    motor.stop(A)"] ++ post) :=
  ⟨rfl,
   ⟨generate_preamble THE_TABLES GENERATION_CONFIG c8_instrs ++
      ["    x = 5", "    motor.run(A, percent_to_dps(x, A_REVERSED))"],
    ["", "runloop.run(main())"],
    by rfl⟩⟩
